import Mathlib

/-!
Shallow embedding of the e6data public benchmark scripts.

Sources embedded here:
* `athena_benchmark.py` — `query_on_athena`, the concurrent batching loop of
  `AthenaBenchmark._perform_query_from_csv`, its sequential loop, and
  `AthenaBenchmark._generate_csv_report`;
* `trino_benchmark.py` — `query_on_6ex`, the concurrent batching loop of
  `E6XBenchmark._perform_query_from_csv`, its sequential loop, and the
  constructor's failure check;
* `jmeter_benchmarks/jmeter-jdbc-test-framework/utilities/jmeter_s3_utils.py`
  — `JMeterS3Path._parse_path`, `list_s3_files`, `download_s3_file`,
  `load_statistics_from_s3`, `extract_query_metrics`,
  `calculate_percentage_diff`, `normalize_query_name`;
* `jmeter_benchmarks/jmeter-jdbc-test-framework/utilities/analyze_aggregate_report.py`
  — the percentile computation of `analyze_report`.

Modelling conventions: Python strings are `String` (or `List Char` where
character-level scanning is needed), Python floats are exact rationals (`Rat`),
Python dicts are association lists in literal order with `.get` as lookup,
wall-clock readings are abstract parameters, and every remote call (Athena /
trino cursor, `aws` subprocess, `json.loads`) is an abstract outcome or oracle
parameter supplied to the function being modelled.
-/

/-- Python values appearing in the result dicts of the benchmark scripts.
Floats are modelled as exact rationals. -/
inductive PyVal where
  | none
  | str (s : String)
  | int (n : Int)
  | rat (q : Rat)
  | bool (b : Bool)
  deriving Repr, DecidableEq

/-- Python dict: an association list in insertion order (keys unique in all
dict literals modelled here). -/
abbrev PyDict := List (String × PyVal)

/-- Python `d.get(k)`: the value at `k`, or `None` when the key is absent. -/
def pyGet (d : PyDict) (k : String) : PyVal :=
  match d.lookup k with
  | some v => v
  | Option.none => PyVal.none

/-- Python `d.pop(k)` (key removal part): the dict without the key `k`. -/
def pyPop (d : PyDict) (k : String) : PyDict :=
  d.filter (fun kv => kv.1 ≠ k)

/-- Substring scan over character lists: does `sub` occur contiguously? -/
def containsSeg (sub : List Char) : List Char → Bool
  | [] => sub.isEmpty
  | c :: rest => sub.isPrefixOf (c :: rest) || containsSeg sub rest

/-- Python `sub in s` on strings: substring containment. -/
def pyIn (sub s : String) : Bool :=
  containsSeg sub.toList s.toList

/-- Outcome of a Python `try` block around remote-engine calls: either the
values the block produced, or the message of the exception it raised. -/
inductive PyOutcome (α : Type) where
  | ok (v : α)
  | exn (msg : String)
  deriving Repr, DecidableEq

/-- Values read from a pyathena cursor after `execute`/`fetchall` succeed.
`data_scanned_in_bytes` and `engine_execution_time_in_millis` are `Option`s:
`Option.none` models the attribute accesses that raise inside the two inner
`try`/`except` blocks of `query_on_athena`. -/
structure AthenaCursorData where
  rownumber : Int
  query_id : String
  data_scanned_in_bytes : Option Rat
  engine_execution_time_in_millis : Option Rat
  deriving Repr, DecidableEq

/-- Python `round(q, 3)` with banker's rounding (round half to even). -/
def pyRound3 (q : Rat) : Rat :=
  let x : Rat := q * 1000
  let f : Int := ⌊x⌋
  let r : Int :=
    if x - f < 1/2 then f
    else if x - f > 1/2 then f + 1
    else if f % 2 = 0 then f else f + 1
  (r : Rat) / 1000

/-- Embedding of `query_on_athena` (athena_benchmark.py, lines 98-144).
`res` is the outcome of `cursor.execute(query); cursor.fetchall()` together
with the cursor attributes read afterwards; `startT`/`endT` are the abstract
wall-clock readings taken at entry and after the fetch (resp. in the `except`
branch). -/
def query_on_athena (res : PyOutcome AthenaCursorData) (startT endT : Rat) :
    PyDict :=
  match res with
  | PyOutcome.ok c =>
    let bytes_scanned : PyVal :=
      match c.data_scanned_in_bytes with
      | some b => PyVal.rat (pyRound3 (b / (1024 * 1024 * 1024)))
      | Option.none => PyVal.str "Not available"
    let execution_time_from_engine : PyVal :=
      match c.engine_execution_time_in_millis with
      | some m => PyVal.rat (m / 1000)
      | Option.none => PyVal.str "Not available"
    [("query_id", PyVal.str c.query_id),
     ("row_count", PyVal.int c.rownumber),
     ("bytes_scanned_in_GB", bytes_scanned),
     ("execution_time", execution_time_from_engine),
     ("client_perceived_time", PyVal.rat (pyRound3 (endT - startT))),
     ("query_status", PyVal.str "Success"),
     ("start_time", PyVal.rat startT),
     ("end_time", PyVal.rat endT),
     ("err_msg", PyVal.none)]
  | PyOutcome.exn e =>
    let err_msg : String :=
      if pyIn "timeout" e then "Connect timeout. Unable to connect." else e
    [("query_id", PyVal.none),
     ("row_count", PyVal.int 0),
     ("bytes_scanned_in_GB", PyVal.rat 0),
     ("execution_time", PyVal.rat 0),
     ("client_perceived_time", PyVal.rat 0),
     ("query_status", PyVal.str "Failure"),
     ("start_time", PyVal.rat startT),
     ("end_time", PyVal.rat endT),
     ("err_msg", PyVal.str err_msg)]

/-- Values read from a trino cursor after `execute`/`fetchall` and the
`cursor.stats.get` calls succeed. `stats.get` returns `None` for missing keys,
so `queryId` is an `Option`; a missing `elapsedTimeMillis` would make
`None / 1000` raise inside the same `try`, i.e. it is part of the `exn`
outcome. -/
structure E6xCursorData where
  result_count : Int
  elapsedTimeMillis : Rat
  queryId : Option String
  deriving Repr, DecidableEq

/-- Embedding of `query_on_6ex` (trino_benchmark.py, lines 54-94). -/
def query_on_6ex (res : PyOutcome E6xCursorData) (startT endT : Rat) :
    PyDict :=
  match res with
  | PyOutcome.ok c =>
    let query_id : PyVal :=
      match c.queryId with
      | some s => PyVal.str s
      | Option.none => PyVal.none
    [("query_id", query_id),
     ("row_count", PyVal.int c.result_count),
     ("execution_time", PyVal.rat (c.elapsedTimeMillis / 1000)),
     ("query_status", PyVal.str "Success"),
     ("start_time", PyVal.rat startT),
     ("end_time", PyVal.rat endT),
     ("err_msg", PyVal.none)]
  | PyOutcome.exn e =>
    let err_msg : String :=
      if pyIn "timeout" e then "Connect timeout. Unable to connect." else e
    [("query_id", PyVal.none),
     ("row_count", PyVal.int 0),
     ("execution_time", PyVal.rat 0),
     ("query_status", PyVal.str "Failure"),
     ("start_time", PyVal.rat startT),
     ("end_time", PyVal.rat endT),
     ("err_msg", PyVal.str err_msg)]

/-- C1: both query runners swallow engine exceptions, returning a Failure
record with zeroed fields and the (possibly timeout-replaced) exception text,
and on success return a Success record with no error message. -/
theorem c1_query_runners_swallow_exceptions
    (startT endT : Rat) :
    (∀ e : String,
      pyGet (query_on_athena (PyOutcome.exn e) startT endT) "query_status"
          = PyVal.str "Failure" ∧
      pyGet (query_on_athena (PyOutcome.exn e) startT endT) "query_id"
          = PyVal.none ∧
      pyGet (query_on_athena (PyOutcome.exn e) startT endT) "row_count"
          = PyVal.int 0 ∧
      pyGet (query_on_athena (PyOutcome.exn e) startT endT) "execution_time"
          = PyVal.rat 0 ∧
      pyGet (query_on_athena (PyOutcome.exn e) startT endT) "err_msg"
          = PyVal.str (if pyIn "timeout" e then
              "Connect timeout. Unable to connect." else e) ∧
      pyGet (query_on_6ex (PyOutcome.exn e) startT endT) "query_status"
          = PyVal.str "Failure" ∧
      pyGet (query_on_6ex (PyOutcome.exn e) startT endT) "query_id"
          = PyVal.none ∧
      pyGet (query_on_6ex (PyOutcome.exn e) startT endT) "row_count"
          = PyVal.int 0 ∧
      pyGet (query_on_6ex (PyOutcome.exn e) startT endT) "execution_time"
          = PyVal.rat 0 ∧
      pyGet (query_on_6ex (PyOutcome.exn e) startT endT) "err_msg"
          = PyVal.str (if pyIn "timeout" e then
              "Connect timeout. Unable to connect." else e)) ∧
    (∀ (c : AthenaCursorData) (c6 : E6xCursorData),
      pyGet (query_on_athena (PyOutcome.ok c) startT endT) "query_status"
          = PyVal.str "Success" ∧
      pyGet (query_on_athena (PyOutcome.ok c) startT endT) "err_msg"
          = PyVal.none ∧
      pyGet (query_on_6ex (PyOutcome.ok c6) startT endT) "query_status"
          = PyVal.str "Success" ∧
      pyGet (query_on_6ex (PyOutcome.ok c6) startT endT) "err_msg"
          = PyVal.none) := by
  constructor
  · intro e
    simp only [query_on_athena, query_on_6ex, pyGet, List.lookup]
    by_cases h : pyIn "timeout" e <;> simp [h]
  · intro c c6
    simp only [query_on_athena, query_on_6ex, pyGet, List.lookup]
    refine ⟨?_, ?_, ?_, ?_⟩ <;> rfl

/-! ### Concurrent batching loops (C2) -/

/-- Observable actions of the concurrent branch of `_perform_query_from_csv`:
launching a `Pool` on a slice of rows, and the `time.sleep` that follows. -/
inductive PoolEvent (α : Type) where
  | launch (batch : List α)
  | idle (seconds : Nat)
  deriving Repr, DecidableEq

/-- Event trace of `for j in range(looper): pool = Pool(...); pool.map_async(f,
all_rows[size*j : size*(j+1)]); time.sleep(wait)`. -/
def concurrentLoopEvents (rows : List α) (size looper wait : Nat) :
    List (PoolEvent α) :=
  (List.range looper).flatMap fun j =>
    [PoolEvent.launch ((rows.drop (size * j)).take size), PoolEvent.idle wait]

/-- Batching of `AthenaBenchmark._perform_query_from_csv` (athena_benchmark.py,
lines 271-279): `loop_count = len(all_rows) / threads` is a Python-3 float, so
`type(loop_count) == float` is always true and
`concurrent_looper = int(loop_count) + 1` unconditionally. -/
def athenaConcurrentEvents (rows : List α) (c wait : Nat) :
    List (PoolEvent α) :=
  concurrentLoopEvents rows c (rows.length / c + 1) wait

/-- Batching of `E6XBenchmark._perform_query_from_csv` (trino_benchmark.py,
lines 234-242): `size = min(threads, len(all_rows))`, and
`concur_looper = int(loop_count) + 1 if int(loop_count) != loop_count else
int(loop_count)`, i.e. one more batch exactly when `threads` does not divide
`len(all_rows)`. -/
def e6xConcurrentEvents (rows : List α) (c wait : Nat) :
    List (PoolEvent α) :=
  concurrentLoopEvents rows (min c rows.length)
    (if rows.length % c = 0 then rows.length / c else rows.length / c + 1) wait

/-- Number of `Pool` launches in a trace. -/
def launchCount (evs : List (PoolEvent α)) : Nat :=
  (evs.filter fun e => match e with
    | PoolEvent.launch _ => true
    | PoolEvent.idle _ => false).length

/-- Number of `time.sleep` calls in a trace. -/
def idleCount (evs : List (PoolEvent α)) : Nat :=
  (evs.filter fun e => match e with
    | PoolEvent.launch _ => false
    | PoolEvent.idle _ => true).length

/-- All rows handed to `pool.map_async`, in submission order. -/
def submittedRows (evs : List (PoolEvent α)) : List α :=
  evs.flatMap fun e => match e with
    | PoolEvent.launch b => b
    | PoolEvent.idle _ => []

/-- Ceiling division: the minimal number of size-`c` batches covering `n`
rows. -/
def ceilDiv (n c : Nat) : Nat :=
  (n + c - 1) / c

theorem le_mul_ceilDiv {n c : Nat} (hc : 0 < c) : n ≤ c * ceilDiv n c := by
  unfold ceilDiv
  have h := Nat.div_add_mod (n + c - 1) c
  have hm : (n + c - 1) % c < c := Nat.mod_lt _ hc
  set q := (n + c - 1) / c with hq
  set A := c * q with hA
  omega

theorem ceilDiv_le {n c L : Nat} (hc : 0 < c) (h : n ≤ c * L) :
    ceilDiv n c ≤ L := by
  unfold ceilDiv
  rw [Nat.div_le_iff_le_mul_add_pred hc]
  set A := c * L with hA
  omega

theorem slices_flatMap_eq_take (rows : List α) (size : Nat) :
    ∀ L : Nat,
      ((List.range L).flatMap fun j => (rows.drop (size * j)).take size)
        = rows.take (size * L)
  | 0 => by simp
  | (L + 1) => by
    rw [List.range_succ, List.flatMap_append,
      slices_flatMap_eq_take rows size L]
    simp only [List.flatMap_cons, List.flatMap_nil, List.append_nil]
    rw [Nat.mul_succ, List.take_add]

theorem submittedRows_concurrentLoop (rows : List α) (size looper wait : Nat) :
    submittedRows (concurrentLoopEvents rows size looper wait)
      = rows.take (size * looper) := by
  unfold submittedRows concurrentLoopEvents
  rw [List.flatMap_assoc]
  simp only [List.flatMap_cons, List.flatMap_nil, List.append_nil]
  exact slices_flatMap_eq_take rows size looper

theorem launchCount_concurrentLoop (rows : List α) (size looper wait : Nat) :
    launchCount (concurrentLoopEvents rows size looper wait) = looper := by
  unfold launchCount concurrentLoopEvents
  induction looper with
  | zero => simp
  | succ L ih =>
    rw [List.range_succ, List.flatMap_append, List.filter_append,
      List.length_append, ih]
    simp

theorem idleCount_concurrentLoop (rows : List α) (size looper wait : Nat) :
    idleCount (concurrentLoopEvents rows size looper wait) = looper := by
  unfold idleCount concurrentLoopEvents
  induction looper with
  | zero => simp
  | succ L ih =>
    rw [List.range_succ, List.flatMap_append, List.filter_append,
      List.length_append, ih]
    simp

theorem batch_small_concurrentLoop (rows : List α) (size looper wait : Nat)
    (b : List α) (hb : PoolEvent.launch b ∈ concurrentLoopEvents rows size looper wait) :
    b.length ≤ size := by
  unfold concurrentLoopEvents at hb
  rw [List.mem_flatMap] at hb
  obtain ⟨j, _, hj⟩ := hb
  simp only [List.mem_cons, List.not_mem_nil, or_false] at hj
  rcases hj with h | h
  · cases h
    exact List.length_take_le _ _
  · cases h

theorem e6xLooper_eq_ceilDiv {n c : Nat} (hc : 0 < c) :
    (if n % c = 0 then n / c else n / c + 1) = ceilDiv n c := by
  have hd := Nat.div_add_mod n c
  have hm : n % c < c := Nat.mod_lt _ hc
  by_cases h : n % c = 0
  · have hlt : c - 1 < c := by omega
    have hrw : n + c - 1 = c * (n / c) + (c - 1) := by
      set A := c * (n / c) with hA
      omega
    have h1 : (n + c - 1) / c = n / c := by
      rw [hrw, Nat.mul_add_div hc, Nat.div_eq_of_lt hlt, Nat.add_zero]
    simp only [h, if_pos]
    unfold ceilDiv
    exact h1.symm
  · have hlt : n % c - 1 < c := by omega
    have hmul : c * (n / c + 1) = c * (n / c) + c := by ring
    have hrw : n + c - 1 = c * (n / c + 1) + (n % c - 1) := by
      rw [hmul]
      set A := c * (n / c) with hA
      omega
    have h1 : (n + c - 1) / c = n / c + 1 := by
      rw [hrw, Nat.mul_add_div hc, Nat.div_eq_of_lt hlt, Nat.add_zero]
    simp only [h, ite_false]
    unfold ceilDiv
    exact h1.symm

theorem submittedRows_athena (rows : List α) (c wait : Nat) (hc : 0 < c) :
    submittedRows (athenaConcurrentEvents rows c wait) = rows := by
  unfold athenaConcurrentEvents
  rw [submittedRows_concurrentLoop]
  apply List.take_of_length_le
  have hd := Nat.div_add_mod rows.length c
  have hm : rows.length % c < c := Nat.mod_lt _ hc
  have hmul : c * (rows.length / c + 1) = c * (rows.length / c) + c := by ring
  rw [hmul]
  set A := c * (rows.length / c) with hA
  omega

theorem submittedRows_e6x (rows : List α) (c wait : Nat) (hc : 0 < c) :
    submittedRows (e6xConcurrentEvents rows c wait) = rows := by
  unfold e6xConcurrentEvents
  rw [submittedRows_concurrentLoop]
  apply List.take_of_length_le
  rw [e6xLooper_eq_ceilDiv hc]
  rcases Nat.le_total c rows.length with h | h
  · rw [Nat.min_eq_left h]
    exact le_mul_ceilDiv hc
  · rw [Nat.min_eq_right h]
    rcases Nat.eq_zero_or_pos rows.length with h0 | h0
    · simp [h0]
    · have h1 : 1 ≤ ceilDiv rows.length c := by
        by_contra hcon
        have hz : ceilDiv rows.length c = 0 := by omega
        have hle := le_mul_ceilDiv (n := rows.length) hc
        rw [hz, Nat.mul_zero] at hle
        omega
      calc rows.length = rows.length * 1 := (Nat.mul_one _).symm
        _ ≤ rows.length * ceilDiv rows.length c :=
            Nat.mul_le_mul_left _ h1

/-- C2 (amended): in CONCURRENT mode both runners slice the row list into
consecutive batches of at most `CONCURRENT_QUERY_COUNT` rows, submit every row
to a `Pool` exactly once, and sleep once per launch; the number of launches is
`ceil(N/C)` for `E6XBenchmark` but `floor(N/C) + 1` for `AthenaBenchmark`,
which exceeds the minimal batch count `ceil(N/C)` by one empty launch whenever
`C` divides `N`. -/
theorem c2_concurrent_batching {α : Type} (rows : List α) (c wait : Nat)
    (hc : 0 < c) :
    submittedRows (athenaConcurrentEvents rows c wait) = rows ∧
    submittedRows (e6xConcurrentEvents rows c wait) = rows ∧
    launchCount (athenaConcurrentEvents rows c wait) = rows.length / c + 1 ∧
    launchCount (e6xConcurrentEvents rows c wait) = ceilDiv rows.length c ∧
    idleCount (athenaConcurrentEvents rows c wait)
      = launchCount (athenaConcurrentEvents rows c wait) ∧
    idleCount (e6xConcurrentEvents rows c wait)
      = launchCount (e6xConcurrentEvents rows c wait) ∧
    (∀ b : List α, PoolEvent.launch b ∈ athenaConcurrentEvents rows c wait →
      b.length ≤ c) ∧
    (∀ b : List α, PoolEvent.launch b ∈ e6xConcurrentEvents rows c wait →
      b.length ≤ c) ∧
    rows.length ≤ c * ceilDiv rows.length c ∧
    (∀ L : Nat, rows.length ≤ c * L → ceilDiv rows.length c ≤ L) := by
  refine ⟨submittedRows_athena rows c wait hc,
    submittedRows_e6x rows c wait hc, ?_, ?_, ?_, ?_, ?_, ?_,
    le_mul_ceilDiv hc, fun L hL => ceilDiv_le hc hL⟩
  · exact launchCount_concurrentLoop ..
  · unfold e6xConcurrentEvents
    rw [launchCount_concurrentLoop, e6xLooper_eq_ceilDiv hc]
  · unfold athenaConcurrentEvents
    rw [launchCount_concurrentLoop, idleCount_concurrentLoop]
  · unfold e6xConcurrentEvents
    rw [launchCount_concurrentLoop, idleCount_concurrentLoop]
  · intro b hb
    exact batch_small_concurrentLoop _ _ _ _ _ hb
  · intro b hb
    have := batch_small_concurrentLoop _ _ _ _ _ hb
    exact le_trans this (Nat.min_le_left _ _)

/-- Witness for C2 (amended) at a concrete input: three rows, batch size two.
Both runners submit every row once; the Athena runner launches two pools
(`3/2 + 1`) and the trino runner `ceil(3/2) = 2`. -/
theorem c2_concurrent_batching_witness :
    submittedRows (athenaConcurrentEvents [10, 20, 30] 2 7) = [10, 20, 30] ∧
    launchCount (athenaConcurrentEvents [10, 20, 30] 2 7) = 2 ∧
    launchCount (e6xConcurrentEvents [10, 20, 30] 2 7) = ceilDiv 3 2 := by
  have h := c2_concurrent_batching [10, 20, 30] 2 7 (by decide)
  refine ⟨h.1, ?_, ?_⟩
  · rw [h.2.2.1]
    rfl
  · rw [h.2.2.2.1]
    rfl

/-- Counterexample to C2 as stated: with five rows and
`CONCURRENT_QUERY_COUNT = 5`, the minimal batch count is `ceil(5/5) = 1`, but
`AthenaBenchmark` launches two pools (the second on an empty slice), because
`concurrent_looper = int(len(all_rows) / threads) + 1` always adds one in
Python 3. -/
theorem c2_counterexample :
    launchCount (athenaConcurrentEvents [1, 2, 3, 4, 5] 5 5) = 2 ∧
    ceilDiv 5 5 = 1 := by
  constructor <;> rfl

/-! ### Result collection, CSV report and constructor failure check (C3, C4) -/

/-- Return tuple of `athena_query_method` (athena_benchmark.py, lines 75-95):
the status dict produced by `query_on_athena` plus the row's alias, the
whitespace-normalised query text and the database name. The connection
management inside the method does not affect the returned tuple and is not
modelled. -/
structure AthenaMethodOut where
  status : PyDict
  query_alias_name : String
  query_text : String
  db_name : String

/-- Return tuple of `e6x_query_method` (trino_benchmark.py, lines 26-51),
which additionally carries the client-perceived wall time. -/
structure E6xMethodOut where
  status : PyDict
  query_alias_name : String
  query_text : String
  db_name : String
  client_perceived_time : Rat

/-- Mutable fields of the benchmark objects touched by
`_perform_query_from_csv`. -/
structure BenchState where
  queryResults : List PyDict
  failedCount : Nat
  successCount : Nat
  counter : Nat
  failedAlias : List String

/-- Benchmark state right after `__init__` zeroes the counters. -/
def initBenchState : BenchState :=
  ⟨[], 0, 0, 0, []⟩

/-- One iteration of the SEQUENTIAL loop of
`AthenaBenchmark._perform_query_from_csv` (athena_benchmark.py, lines
311-346): `err_msg` is popped from the status dict, a first result record
(with `err_msg`, without `s_no`) is appended, the failure/success counters are
updated, then a second record (with `s_no`, without `err_msg`) is appended for
the same query and the counter advances. -/
def athenaSeqStep (st : BenchState) (o : AthenaMethodOut) : BenchState :=
  let errMsg := pyGet o.status "err_msg"
  let status' := pyPop o.status "err_msg"
  let entry1 : PyDict := status' ++
    [("query_alias_name", PyVal.str o.query_alias_name),
     ("query_text", PyVal.str o.query_text),
     ("db_name", PyVal.str o.db_name),
     ("err_msg", errMsg)]
  let entry2 : PyDict :=
    [("s_no", PyVal.int (st.counter + 1)),
     ("query_alias_name", PyVal.str o.query_alias_name),
     ("query_text", PyVal.str o.query_text),
     ("db_name", PyVal.str o.db_name)] ++ status'
  let isFail := pyGet status' "query_status" = PyVal.str "Failure"
  { queryResults := st.queryResults ++ [entry1, entry2],
    failedCount := if isFail then st.failedCount + 1 else st.failedCount,
    successCount := if isFail then st.successCount else st.successCount + 1,
    counter := st.counter + 1,
    failedAlias := if isFail then st.failedAlias ++ [o.query_alias_name]
      else st.failedAlias }

/-- SEQUENTIAL branch of `AthenaBenchmark._perform_query_from_csv` over the
per-row outputs of `athena_query_method`. -/
def athenaSequentialRun (outs : List AthenaMethodOut) : BenchState :=
  outs.foldl athenaSeqStep initBenchState

/-- One iteration of the result-collection loop of the CONCURRENT branch of
`AthenaBenchmark._perform_query_from_csv` (athena_benchmark.py, lines
281-309): the counters are updated and a single record (with `s_no` and the
full status dict, `err_msg` included) is appended. -/
def athenaConcStep (st : BenchState) (o : AthenaMethodOut) : BenchState :=
  let entry : PyDict :=
    [("s_no", PyVal.int (st.counter + 1)),
     ("query_alias_name", PyVal.str o.query_alias_name),
     ("query_text", PyVal.str o.query_text),
     ("db_name", PyVal.str o.db_name)] ++ o.status
  let isFail := pyGet o.status "query_status" = PyVal.str "Failure"
  { queryResults := st.queryResults ++ [entry],
    failedCount := if isFail then st.failedCount + 1 else st.failedCount,
    successCount := if isFail then st.successCount else st.successCount + 1,
    counter := st.counter + 1,
    failedAlias := if isFail then st.failedAlias ++ [o.query_alias_name]
      else st.failedAlias }

/-- Result collection of the CONCURRENT branch: `for j in pool_pool: for
output in j.get(): ...` visits the pool outputs batch by batch in submission
order, i.e. exactly the submitted rows in order, each mapped through
`athena_query_method`. -/
def athenaConcurrentRun {α : Type} (rows : List α)
    (method : α → AthenaMethodOut) (c wait : Nat) : BenchState :=
  ((submittedRows (athenaConcurrentEvents rows c wait)).map method).foldl
    athenaConcStep initBenchState

/-- One iteration of the SEQUENTIAL loop of
`E6XBenchmark._perform_query_from_csv` (trino_benchmark.py, lines 278-289):
one record is appended and, unlike the Athena script, neither counter nor
`failed_query_alias` nor `counter` is touched. -/
def e6xSeqStep (st : BenchState) (o : E6xMethodOut) : BenchState :=
  let errMsg := pyGet o.status "err_msg"
  let status' := pyPop o.status "err_msg"
  let entry : PyDict := status' ++
    [("query_alias_name", PyVal.str o.query_alias_name),
     ("query_text", PyVal.str o.query_text),
     ("db_name", PyVal.str o.db_name),
     ("client_perceived_time", PyVal.rat o.client_perceived_time),
     ("err_msg", errMsg)]
  { st with queryResults := st.queryResults ++ [entry] }

/-- SEQUENTIAL branch of `E6XBenchmark._perform_query_from_csv`. -/
def e6xSequentialRun (outs : List E6xMethodOut) : BenchState :=
  outs.foldl e6xSeqStep initBenchState

/-- Embedding of `create_readable_name_from_key_name`:
`key.lower().replace('_', ' ').capitalize()`. -/
def create_readable_name_from_key_name (key : String) : String :=
  let lowered := (key.toList.map Char.toLower).map
    fun c => if c = '_' then ' ' else c
  match lowered with
  | [] => ""
  | c :: rest => (c.toUpper :: rest.map Char.toLower).asString

/-- Column order of `AthenaBenchmark._generate_csv_report`
(athena_benchmark.py, lines 363-365). -/
def athenaColumnOrder : List String :=
  ["db_name", "query_alias_name", "query_text", "query_id", "query_status",
   "execution_time", "client_perceived_time", "row_count",
   "bytes_scanned_in_GB", "err_msg", "start_time", "end_time"]

/-- Column order of `E6XBenchmark._generate_csv_report` (trino_benchmark.py,
lines 163-164). -/
def e6xColumnOrder : List String :=
  ["db_name", "query_alias_name", "query_text", "query_id", "query_status",
   "execution_time", "client_perceived_time", "row_count", "err_msg",
   "start_time", "end_time"]

/-- Embedding of `_generate_csv_report` (both scripts): the written CSV as a
header row (readable column names) and one data row per entry of `result`,
each data row listing `line.get(k)` for `k` in column order. -/
def generate_csv_report (result : List PyDict) (columnOrder : List String) :
    List String × List (List PyVal) :=
  (columnOrder.map create_readable_name_from_key_name,
   result.map fun line => columnOrder.map (pyGet line))

theorem athenaSeq_foldl_length (outs : List AthenaMethodOut) :
    ∀ st : BenchState,
      (outs.foldl athenaSeqStep st).queryResults.length
        = st.queryResults.length + 2 * outs.length := by
  induction outs with
  | nil => intro st; simp
  | cons o rest ih =>
    intro st
    rw [List.foldl_cons, ih]
    simp only [athenaSeqStep, List.length_append, List.length_cons,
      List.length_nil]
    omega

theorem athenaConc_foldl_length (outs : List AthenaMethodOut) :
    ∀ st : BenchState,
      (outs.foldl athenaConcStep st).queryResults.length
        = st.queryResults.length + outs.length := by
  induction outs with
  | nil => intro st; simp
  | cons o rest ih =>
    intro st
    rw [List.foldl_cons, ih]
    simp only [athenaConcStep, List.length_append, List.length_cons,
      List.length_nil]
    omega

/-- C3 (amended): the Athena CSV report always has the fixed human-readable
header; in CONCURRENT mode it has one data row per input query, but in
SEQUENTIAL mode the loop appends two result records per query (one with
`err_msg` and no `s_no`, one with `s_no` and no `err_msg`), so the report has
`2 * N` data rows. -/
theorem c3_report_shape {α : Type} (outs : List AthenaMethodOut)
    (rows : List α) (method : α → AthenaMethodOut) (c wait : Nat)
    (hc : 0 < c) :
    (generate_csv_report (athenaSequentialRun outs).queryResults
        athenaColumnOrder).1
      = ["Db name", "Query alias name", "Query text", "Query id",
         "Query status", "Execution time", "Client perceived time",
         "Row count", "Bytes scanned in gb", "Err msg", "Start time",
         "End time"] ∧
    (generate_csv_report (athenaSequentialRun outs).queryResults
        athenaColumnOrder).2.length = 2 * outs.length ∧
    (generate_csv_report (athenaConcurrentRun rows method c wait).queryResults
        athenaColumnOrder).2.length = rows.length := by
  refine ⟨?_, ?_, ?_⟩
  · show athenaColumnOrder.map create_readable_name_from_key_name = _
    decide
  · simp only [generate_csv_report, List.length_map, athenaSequentialRun]
    rw [athenaSeq_foldl_length]
    simp [initBenchState]
  · simp only [generate_csv_report, List.length_map, athenaConcurrentRun]
    rw [athenaConc_foldl_length]
    simp [initBenchState, submittedRows_athena rows c wait hc]

/-- Witness for C3 (amended) at a concrete input: one failing query in
sequential mode produces two data rows, one query in concurrent mode one data
row. -/
theorem c3_report_shape_witness :
    (generate_csv_report
        (athenaSequentialRun
          [⟨query_on_athena (PyOutcome.exn "boom") 0 0, "q1", "select 1",
            "db"⟩]).queryResults athenaColumnOrder).2.length = 2 * 1 ∧
    (generate_csv_report
        (athenaConcurrentRun [()]
          (fun _ => ⟨query_on_athena (PyOutcome.exn "boom") 0 0, "q1",
            "select 1", "db"⟩) 3 1).queryResults athenaColumnOrder).2.length
      = 1 := by
  have h := c3_report_shape
    [⟨query_on_athena (PyOutcome.exn "boom") 0 0, "q1", "select 1", "db"⟩]
    [()]
    (fun _ => ⟨query_on_athena (PyOutcome.exn "boom") 0 0, "q1",
      "select 1", "db"⟩)
    3 1 (by decide)
  exact ⟨h.2.1, h.2.2⟩

/-- Counterexample to C3 as stated: a single-query run in SEQUENTIAL mode
writes two data rows, not one, because the sequential loop of
`AthenaBenchmark._perform_query_from_csv` appends each query's result to
`query_results` twice. -/
theorem c3_counterexample :
    (generate_csv_report
        (athenaSequentialRun
          [⟨query_on_athena (PyOutcome.exn "divide by zero") 0 0, "q1",
            "select 1", "db"⟩]).queryResults athenaColumnOrder).2.length
      = 2 ∧ (2 : Nat) ≠ 1 := by
  constructor
  · rfl
  · decide

theorem e6xSeq_foldl_counts (outs : List E6xMethodOut) :
    ∀ st : BenchState,
      (outs.foldl e6xSeqStep st).failedCount = st.failedCount ∧
      (outs.foldl e6xSeqStep st).successCount = st.successCount := by
  induction outs with
  | nil => intro st; exact ⟨rfl, rfl⟩
  | cons o rest ih =>
    intro st
    rw [List.foldl_cons]
    exact ih _

/-- Tail of `E6XBenchmark._perform_query_from_csv` in SEQUENTIAL mode
(trino_benchmark.py, lines 291-299): the results plus
`is_any_query_failed = failed_query_count > 0`. -/
def e6xPerformSequential (outs : List E6xMethodOut) :
    List PyDict × Bool :=
  let st := e6xSequentialRun outs
  (st.queryResults, decide (st.failedCount > 0))

/-- Embedding of the `E6XBenchmark` constructor in SEQUENTIAL mode
(trino_benchmark.py, lines 123-156): `_check_envs` raises `QueryException`
when an environment variable is missing (`envOk = false`); otherwise the run
is performed, the report generated, and `QueryException` is raised exactly
when `is_any_query_failed` is true. -/
def e6xBenchmarkSequential (envOk : Bool) (outs : List E6xMethodOut) :
    Except String (List String × List (List PyVal)) :=
  if !envOk then
    Except.error "Invalid environment: Please set the environment."
  else
    let (result, isAnyQueryFailed) := e6xPerformSequential outs
    let report := generate_csv_report result e6xColumnOrder
    if isAnyQueryFailed then
      Except.error
        "Some queries failed. Please check the above logs for more information."
    else
      Except.ok report

/-- C4: the sequential loop of `E6XBenchmark._perform_query_from_csv` never
touches the success/failure counters, so both totals are 0,
`is_any_query_failed` is false, and (given the environment checks pass) the
constructor returns normally instead of raising `QueryException`, whatever
the per-query outcomes were. -/
theorem c4_e6x_sequential_never_raises (outs : List E6xMethodOut)
    (envOk : Bool) (henv : envOk = true) :
    (e6xSequentialRun outs).failedCount = 0 ∧
    (e6xSequentialRun outs).successCount = 0 ∧
    (e6xPerformSequential outs).2 = false ∧
    e6xBenchmarkSequential envOk outs
      = Except.ok (generate_csv_report (e6xSequentialRun outs).queryResults
          e6xColumnOrder) := by
  have h := e6xSeq_foldl_counts outs initBenchState
  have hf : (e6xSequentialRun outs).failedCount = 0 := h.1
  have hs : (e6xSequentialRun outs).successCount = 0 := h.2
  have hp : (e6xPerformSequential outs).2 = false := by
    simp [e6xPerformSequential, hf]
  refine ⟨hf, hs, hp, ?_⟩
  subst henv
  simp [e6xBenchmarkSequential, e6xPerformSequential, hf]

/-- Witness for C4 at a concrete input: a single query that failed with a
timeout; the constructor still returns normally. -/
theorem c4_e6x_sequential_never_raises_witness :
    (e6xBenchmarkSequential true
        [⟨query_on_6ex (PyOutcome.exn "connect timeout") 0 0, "q1",
          "select 1", "db", 5⟩]).isOk = true := by
  have h := c4_e6x_sequential_never_raises
    [⟨query_on_6ex (PyOutcome.exn "connect timeout") 0 0, "q1",
      "select 1", "db", 5⟩] true rfl
  rw [h.2.2.2]
  rfl

/-! ### JMeter statistics helpers (C6, C9, C10) -/

/-- One entry of a JMeter `statistics.json` file, as read by
`extract_query_metrics`: the response-time fields (milliseconds), the error
percentage and the sample count. Numbers are exact rationals. -/
structure JMeterStats where
  meanResTime : Rat
  medianResTime : Rat
  pct1ResTime : Rat
  pct2ResTime : Rat
  pct3ResTime : Rat
  minResTime : Rat
  maxResTime : Rat
  errorPct : Rat
  sampleCount : Rat
  deriving Repr, DecidableEq

/-- Record returned by `extract_query_metrics` (seconds). -/
structure QueryMetrics where
  avg : Rat
  median : Rat
  p90 : Rat
  p95 : Rat
  p99 : Rat
  min : Rat
  max : Rat
  error_pct : Rat
  samples : Rat
  deriving Repr, DecidableEq

/-- A statistics dict: query label to entry, in insertion order. -/
abbrev StatsDict := List (String × JMeterStats)

/-- Embedding of `extract_query_metrics` (jmeter_s3_utils.py, lines 221-242).
`query_name not in stats` returns `None`; otherwise the millisecond fields are
divided by 1000 and `errorPct`/`sampleCount` are copied. -/
def extract_query_metrics (stats : StatsDict) (query_name : String) :
    Option QueryMetrics :=
  match stats.lookup query_name with
  | Option.none => Option.none
  | some m => some
    { avg := m.meanResTime / 1000,
      median := m.medianResTime / 1000,
      p90 := m.pct1ResTime / 1000,
      p95 := m.pct2ResTime / 1000,
      p99 := m.pct3ResTime / 1000,
      min := m.minResTime / 1000,
      max := m.maxResTime / 1000,
      error_pct := m.errorPct,
      samples := m.sampleCount }

/-- C6: `extract_query_metrics` returns `None` exactly for absent query names,
and otherwise the entry's millisecond fields divided by 1000, with `errorPct`
and `sampleCount` unchanged. -/
theorem c6_extract_query_metrics (stats : StatsDict) (query_name : String) :
    (extract_query_metrics stats query_name = Option.none
      ↔ stats.lookup query_name = Option.none) ∧
    (∀ m : JMeterStats, stats.lookup query_name = some m →
      extract_query_metrics stats query_name = some
        { avg := m.meanResTime / 1000,
          median := m.medianResTime / 1000,
          p90 := m.pct1ResTime / 1000,
          p95 := m.pct2ResTime / 1000,
          p99 := m.pct3ResTime / 1000,
          min := m.minResTime / 1000,
          max := m.maxResTime / 1000,
          error_pct := m.errorPct,
          samples := m.sampleCount }) := by
  constructor
  · unfold extract_query_metrics
    cases stats.lookup query_name <;> simp
  · intro m hm
    unfold extract_query_metrics
    rw [hm]

/-- Witness for C6 at a concrete input: a one-entry dict, hit and miss. -/
theorem c6_extract_query_metrics_witness :
    extract_query_metrics
        [("TPCDS-1", ⟨2000, 1500, 3000, 3500, 4000, 100, 5000, 0, 10⟩)]
        "TPCDS-1"
      = some ⟨2, 3/2, 3, 7/2, 4, 1/10, 5, 0, 10⟩ ∧
    extract_query_metrics
        [("TPCDS-1", ⟨2000, 1500, 3000, 3500, 4000, 100, 5000, 0, 10⟩)]
        "TPCDS-2"
      = Option.none := by
  constructor
  · have h := (c6_extract_query_metrics
      [("TPCDS-1", ⟨2000, 1500, 3000, 3500, 4000, 100, 5000, 0, 10⟩)]
      "TPCDS-1").2 ⟨2000, 1500, 3000, 3500, 4000, 100, 5000, 0, 10⟩ (by rfl)
    rw [h]
    norm_num
  · exact (c6_extract_query_metrics
      [("TPCDS-1", ⟨2000, 1500, 3000, 3500, 4000, 100, 5000, 0, 10⟩)]
      "TPCDS-2").1.mpr (by rfl)

/-- Embedding of `calculate_percentage_diff` (jmeter_s3_utils.py, lines
252-260). -/
def calculate_percentage_diff (val1 val2 : Rat) : Rat :=
  if val2 = 0 then 0 else ((val2 - val1) / val2) * 100

/-- C9: `calculate_percentage_diff` is total on rationals, returns 0 at a zero
baseline, otherwise `((val2 - val1) / val2) * 100`, which for positive `val2`
is positive exactly when `val1 < val2`. -/
theorem c9_calculate_percentage_diff (val1 val2 : Rat) :
    (val2 = 0 → calculate_percentage_diff val1 val2 = 0) ∧
    (val2 ≠ 0 → calculate_percentage_diff val1 val2
      = ((val2 - val1) / val2) * 100) ∧
    (0 < val2 → (0 < calculate_percentage_diff val1 val2 ↔ val1 < val2)) := by
  refine ⟨?_, ?_, ?_⟩
  · intro h
    simp [calculate_percentage_diff, h]
  · intro h
    simp [calculate_percentage_diff, h]
  · intro h
    have hne : val2 ≠ 0 := ne_of_gt h
    unfold calculate_percentage_diff
    rw [if_neg hne]
    constructor
    · intro hp
      by_contra hcon
      push_neg at hcon
      have h1 : val2 - val1 ≤ 0 := by linarith
      have h2 : (val2 - val1) / val2 ≤ 0 := div_nonpos_of_nonpos_of_nonneg h1 (le_of_lt h)
      nlinarith
    · intro hlt
      have h1 : 0 < val2 - val1 := by linarith
      have h2 : 0 < (val2 - val1) / val2 := div_pos h1 h
      nlinarith

/-- Witness for C9 at concrete inputs: zero baseline gives 0, and with
baseline 4 and value 1 the diff `((4-1)/4)*100 = 75` is positive. -/
theorem c9_calculate_percentage_diff_witness :
    calculate_percentage_diff 3 0 = 0 ∧
    calculate_percentage_diff 1 4 = ((4 - 1) / 4) * 100 ∧
    (0 < calculate_percentage_diff 1 4 ↔ (1 : Rat) < 4) := by
  refine ⟨(c9_calculate_percentage_diff 3 0).1 rfl,
    (c9_calculate_percentage_diff 1 4).2.1 (by norm_num),
    (c9_calculate_percentage_diff 1 4).2.2 (by norm_num)⟩

/-! ### Query-name normalisation (C10) -/

/-- Python `s.split(sep)` for a one-character separator: splits at every
occurrence, keeping empty pieces; the result is always non-empty. -/
def pySplitChar (sep : Char) : List Char → List (List Char)
  | [] => [[]]
  | c :: rest =>
    if c = sep then [] :: pySplitChar sep rest
    else
      match pySplitChar sep rest with
      | h :: t => (c :: h) :: t
      | [] => [[c]]

/-- Loop of `normalize_query_name`: the piece following the first
`'TPCDS'` piece that has a successor, if any. -/
def findTPCDSNext : List (List Char) → Option (List Char)
  | [] => Option.none
  | [_] => Option.none
  | p :: q :: rest =>
    if p = "TPCDS".toList then some q else findTPCDSNext (q :: rest)

/-- Embedding of `normalize_query_name` (jmeter_s3_utils.py, lines 276-295)
over character lists. -/
def normalize_query_name (query_name source_engine : List Char) : List Char :=
  if "TPCDS-".toList.isPrefixOf query_name then query_name
  else if source_engine = "e6data".toList
      ∧ "query-".toList.isPrefixOf query_name then
    match findTPCDSNext (pySplitChar '-' query_name) with
    | some nxt => "TPCDS-".toList ++ nxt
    | Option.none => query_name
  else query_name

theorem tpcds_isPrefixOf_append (nxt : List Char) :
    "TPCDS-".toList.isPrefixOf ("TPCDS-".toList ++ nxt) = true := by
  rw [List.isPrefixOf_iff_prefix]
  exact List.prefix_append _ _

/-- C10: `normalize_query_name` is idempotent for every query name and source
engine, and every name starting with `TPCDS-` is returned unchanged. -/
theorem c10_normalize_idempotent (query_name source_engine : List Char) :
    normalize_query_name (normalize_query_name query_name source_engine)
        source_engine
      = normalize_query_name query_name source_engine ∧
    ("TPCDS-".toList.isPrefixOf query_name = true →
      normalize_query_name query_name source_engine = query_name) := by
  constructor
  · by_cases h1 : "TPCDS-".toList.isPrefixOf query_name
    · have hq : normalize_query_name query_name source_engine = query_name := by
        rw [normalize_query_name, if_pos h1]
      rw [hq]
      exact hq
    · by_cases h2 : source_engine = "e6data".toList
          ∧ "query-".toList.isPrefixOf query_name
      · rcases hf : findTPCDSNext (pySplitChar '-' query_name) with _ | nxt
        · have hq : normalize_query_name query_name source_engine
              = query_name := by
            rw [normalize_query_name, if_neg h1, if_pos h2, hf]
          rw [hq, normalize_query_name, if_neg h1, if_pos h2, hf]
        · have hq : normalize_query_name query_name source_engine
              = "TPCDS-".toList ++ nxt := by
            rw [normalize_query_name, if_neg h1, if_pos h2, hf]
          rw [hq, normalize_query_name, if_pos (tpcds_isPrefixOf_append nxt)]
      · have hq : normalize_query_name query_name source_engine
            = query_name := by
          rw [normalize_query_name, if_neg h1, if_neg h2]
        rw [hq, normalize_query_name, if_neg h1, if_neg h2]
  · intro h
    rw [normalize_query_name, if_pos h]

/-- Witness for C10 at concrete inputs: the e6data name `query-2-TPCDS-2`
normalises to `TPCDS-2` and is stable under a second application, and
`TPCDS-7` is a fixed point. -/
theorem c10_normalize_idempotent_witness :
    normalize_query_name
        (normalize_query_name "query-2-TPCDS-2".toList "e6data".toList)
        "e6data".toList
      = normalize_query_name "query-2-TPCDS-2".toList "e6data".toList ∧
    normalize_query_name "TPCDS-7".toList "databricks".toList
      = "TPCDS-7".toList := by
  exact ⟨(c10_normalize_idempotent "query-2-TPCDS-2".toList
      "e6data".toList).1,
    (c10_normalize_idempotent "TPCDS-7".toList "databricks".toList).2
      (by decide)⟩

/-! ### Aggregate-report percentiles (C7) -/

/-- Percentile block of `analyze_report`
(analyze_aggregate_report.py, lines 202-216): sort ascending, read
`sorted_times[int(n*0.50)]`, `[int(n*0.90)]`, `[int(n*0.95)]` and
`[min(int(n*0.99), n-1)]`. Python list indexing raises on an out-of-range
index, modelled by the `Option`-valued `l[i]?`. -/
def analyze_report_percentiles (response_times : List Int) :
    Option (Int × Int × Int × Int) :=
  let sorted_times := List.insertionSort (· ≤ ·) response_times
  let n := sorted_times.length
  match sorted_times[Nat.floor ((n : ℚ) * 0.50)]?,
      sorted_times[Nat.floor ((n : ℚ) * 0.90)]?,
      sorted_times[Nat.floor ((n : ℚ) * 0.95)]?,
      sorted_times[min (Nat.floor ((n : ℚ) * 0.99)) (n - 1)]? with
  | some a, some b, some c, some d => some (a, b, c, d)
  | _, _, _, _ => Option.none

theorem floor_mul_frac_lt (n : Nat) (hn : 0 < n) (q : ℚ) (h0 : 0 ≤ q)
    (h1 : q < 1) : Nat.floor ((n : ℚ) * q) < n := by
  have hx : (0 : ℚ) ≤ (n : ℚ) * q :=
    mul_nonneg (by positivity) h0
  rw [Nat.floor_lt hx]
  calc (n : ℚ) * q < (n : ℚ) * 1 := by
        apply mul_lt_mul_of_pos_left h1
        exact_mod_cast hn
    _ = (n : ℚ) := mul_one _

/-- C7: for every non-empty input the percentile indices are in bounds, the
computation succeeds, P50/P90/P95 are the sorted list's elements at
`floor(n*0.50)`, `floor(n*0.90)`, `floor(n*0.95)`, P99 at
`min(floor(n*0.99), n-1)`, and `P50 ≤ P90 ≤ P95 ≤ P99`. -/
theorem c7_percentiles (times : List Int) (h : times ≠ []) :
    ∃ p : Int × Int × Int × Int,
      analyze_report_percentiles times = some p ∧
      Nat.floor ((times.length : ℚ) * 0.50) < times.length ∧
      Nat.floor ((times.length : ℚ) * 0.90) < times.length ∧
      Nat.floor ((times.length : ℚ) * 0.95) < times.length ∧
      min (Nat.floor ((times.length : ℚ) * 0.99)) (times.length - 1)
        < times.length ∧
      (List.insertionSort (· ≤ ·) times)[Nat.floor
          ((times.length : ℚ) * 0.50)]? = some p.1 ∧
      (List.insertionSort (· ≤ ·) times)[Nat.floor
          ((times.length : ℚ) * 0.90)]? = some p.2.1 ∧
      (List.insertionSort (· ≤ ·) times)[Nat.floor
          ((times.length : ℚ) * 0.95)]? = some p.2.2.1 ∧
      (List.insertionSort (· ≤ ·) times)[min (Nat.floor
          ((times.length : ℚ) * 0.99)) (times.length - 1)]? = some p.2.2.2 ∧
      p.1 ≤ p.2.1 ∧ p.2.1 ≤ p.2.2.1 ∧ p.2.2.1 ≤ p.2.2.2 := by
  have hn : 0 < times.length := List.length_pos.mpr h
  set s := List.insertionSort (· ≤ ·) times with hs
  have hlen : s.length = times.length := List.length_insertionSort _ _
  have hsort : s.Sorted (· ≤ ·) := List.sorted_insertionSort _ _
  set n := times.length with hndef
  have hb50 : Nat.floor ((n : ℚ) * 0.50) < n :=
    floor_mul_frac_lt n hn _ (by norm_num) (by norm_num)
  have hb90 : Nat.floor ((n : ℚ) * 0.90) < n :=
    floor_mul_frac_lt n hn _ (by norm_num) (by norm_num)
  have hb95 : Nat.floor ((n : ℚ) * 0.95) < n :=
    floor_mul_frac_lt n hn _ (by norm_num) (by norm_num)
  have hb99 : min (Nat.floor ((n : ℚ) * 0.99)) (n - 1) < n := by
    have : n - 1 < n := by omega
    exact lt_of_le_of_lt (Nat.min_le_right _ _) this
  have hmono : ∀ q1 q2 : ℚ, q1 ≤ q2 →
      Nat.floor ((n : ℚ) * q1) ≤ Nat.floor ((n : ℚ) * q2) := by
    intro q1 q2 hq
    apply Nat.floor_le_floor
    apply mul_le_mul_of_nonneg_left hq
    positivity
  have hi1 : Nat.floor ((n : ℚ) * 0.50) ≤ Nat.floor ((n : ℚ) * 0.90) :=
    hmono _ _ (by norm_num)
  have hi2 : Nat.floor ((n : ℚ) * 0.90) ≤ Nat.floor ((n : ℚ) * 0.95) :=
    hmono _ _ (by norm_num)
  have hi3 : Nat.floor ((n : ℚ) * 0.95)
      ≤ min (Nat.floor ((n : ℚ) * 0.99)) (n - 1) := by
    apply le_min (hmono _ _ (by norm_num))
    omega
  have hb50s : Nat.floor ((n : ℚ) * 0.50) < s.length := by omega
  have hb90s : Nat.floor ((n : ℚ) * 0.90) < s.length := by omega
  have hb95s : Nat.floor ((n : ℚ) * 0.95) < s.length := by omega
  have hb99s : min (Nat.floor ((n : ℚ) * 0.99)) (n - 1) < s.length := by omega
  have hval : ∀ (i j : Nat) (hi : i < s.length) (hj : j < s.length),
      i ≤ j → s[i] ≤ s[j] := by
    intro i j hi hj hij
    have := hsort.rel_get_of_le (a := ⟨i, hi⟩) (b := ⟨j, hj⟩) hij
    simpa using this
  refine ⟨(s.get ⟨Nat.floor ((n : ℚ) * 0.50), hb50s⟩,
    s.get ⟨Nat.floor ((n : ℚ) * 0.90), hb90s⟩,
    s.get ⟨Nat.floor ((n : ℚ) * 0.95), hb95s⟩,
    s.get ⟨min (Nat.floor ((n : ℚ) * 0.99)) (n - 1), hb99s⟩), ?_, hb50,
    hb90, hb95, hb99, ?_, ?_, ?_, ?_, ?_, ?_, ?_⟩
  · unfold analyze_report_percentiles
    rw [← hs]
    simp only [hlen, ← hndef]
    rw [List.getElem?_eq_getElem hb50s, List.getElem?_eq_getElem hb90s,
      List.getElem?_eq_getElem hb95s, List.getElem?_eq_getElem hb99s]
    rfl
  · exact List.getElem?_eq_getElem hb50s
  · exact List.getElem?_eq_getElem hb90s
  · exact List.getElem?_eq_getElem hb95s
  · exact List.getElem?_eq_getElem hb99s
  · exact hval _ _ hb50s hb90s hi1
  · exact hval _ _ hb90s hb95s hi2
  · exact hval _ _ hb95s hb99s hi3

/-- Witness for C7 at a concrete input: the three response times 3, 1, 2. -/
theorem c7_percentiles_witness :
    ∃ p : Int × Int × Int × Int,
      analyze_report_percentiles [3, 1, 2] = some p ∧
      Nat.floor ((([3, 1, 2] : List Int).length : ℚ) * 0.50)
        < ([3, 1, 2] : List Int).length ∧
      Nat.floor ((([3, 1, 2] : List Int).length : ℚ) * 0.90)
        < ([3, 1, 2] : List Int).length ∧
      Nat.floor ((([3, 1, 2] : List Int).length : ℚ) * 0.95)
        < ([3, 1, 2] : List Int).length ∧
      min (Nat.floor ((([3, 1, 2] : List Int).length : ℚ) * 0.99))
          (([3, 1, 2] : List Int).length - 1)
        < ([3, 1, 2] : List Int).length ∧
      (List.insertionSort (· ≤ ·) [3, 1, 2])[Nat.floor
          ((([3, 1, 2] : List Int).length : ℚ) * 0.50)]? = some p.1 ∧
      (List.insertionSort (· ≤ ·) [3, 1, 2])[Nat.floor
          ((([3, 1, 2] : List Int).length : ℚ) * 0.90)]? = some p.2.1 ∧
      (List.insertionSort (· ≤ ·) [3, 1, 2])[Nat.floor
          ((([3, 1, 2] : List Int).length : ℚ) * 0.95)]? = some p.2.2.1 ∧
      (List.insertionSort (· ≤ ·) [3, 1, 2])[min (Nat.floor
          ((([3, 1, 2] : List Int).length : ℚ) * 0.99))
          (([3, 1, 2] : List Int).length - 1)]? = some p.2.2.2 ∧
      p.1 ≤ p.2.1 ∧ p.2.1 ≤ p.2.2.1 ∧ p.2.2.1 ≤ p.2.2.2 :=
  c7_percentiles [3, 1, 2] (by decide)

/-! ### S3 helper functions (C8) -/

/-- Outcome of `subprocess.run(cmd, capture_output=True, text=True,
check=True)`: captured stdout on success, or the `CalledProcessError`'s
stderr on a non-zero exit. -/
inductive CmdResult where
  | ok (stdout : String)
  | err (stderr : String)
  deriving Repr, DecidableEq

/-- Python `s.rstrip('/')`. -/
def rstripSlash (s : String) : String :=
  ((s.toList.reverse.dropWhile fun c => c = '/').reverse).asString

/-- Python `s.strip()` (whitespace on both ends). -/
def pyStrip (s : String) : String :=
  (((s.toList.dropWhile Char.isWhitespace).reverse.dropWhile
    Char.isWhitespace).reverse).asString

/-- Python `line.split(None, maxs)`: split on whitespace runs, at most `maxs`
splits, remainder (leading whitespace stripped) as last piece. -/
def pySplitWsAux : Nat → List Char → List (List Char)
  | maxs, cs =>
    let cs1 := cs.dropWhile Char.isWhitespace
    if cs1.isEmpty then []
    else
      match maxs with
      | 0 => [cs1]
      | m + 1 =>
        let w := cs1.takeWhile fun c => !c.isWhitespace
        let rest := cs1.dropWhile fun c => !c.isWhitespace
        w :: pySplitWsAux m rest

/-- Python `'s3://' + p` unless `p` already starts with `s3://`. -/
def ensureS3Scheme (p : String) : String :=
  if "s3://".toList.isPrefixOf p.toList then p else "s3://" ++ p

/-- The `aws s3 ls` command built by `list_s3_files` (jmeter_s3_utils.py,
lines 117-118). -/
def listS3Cmd (s3_path : String) : List String :=
  ["aws", "s3", "ls", rstripSlash s3_path ++ "/", "--recursive"]

/-- Parsing of the listing stdout by `list_s3_files` (lines 122-130): per
non-empty line of `stdout.strip().split('\n')`, `parts = line.split(None, 3)`;
when there are four parts the fourth is the filename, kept if it contains
`pattern`. -/
def parseS3Listing (stdout : String) (pattern : String) : List String :=
  (pySplitChar '\n' (pyStrip stdout).toList).filterMap fun line =>
    if line.isEmpty then Option.none
    else
      let parts := pySplitWsAux 3 line
      if h : parts.length = 4 then
        let filename := parts.get ⟨3, by omega⟩
        if containsSeg pattern.toList filename then some filename.asString
        else Option.none
      else Option.none

/-- Embedding of `list_s3_files` (jmeter_s3_utils.py, lines 115-133), with
the `aws` subprocess as an oracle `runCmd`. -/
def list_s3_files (runCmd : List String → CmdResult)
    (s3_path pattern : String) : List String :=
  match runCmd (listS3Cmd s3_path) with
  | CmdResult.ok stdout => parseS3Listing stdout pattern
  | CmdResult.err _ => []

/-- The `aws s3 cp` command built by `download_s3_file` (lines 136-147). -/
def downloadS3Cmd (s3_path filename local_dir : String) : List String :=
  let p := ensureS3Scheme (rstripSlash s3_path ++ "/")
  ["aws", "s3", "cp", p ++ filename, local_dir ++ "/" ++ filename]

/-- Embedding of `download_s3_file` (jmeter_s3_utils.py, lines 136-154):
local paths are rendered as `local_dir / filename`. -/
def download_s3_file (runCmd : List String → CmdResult)
    (s3_path filename local_dir : String) : Option String :=
  match runCmd (downloadS3Cmd s3_path filename local_dir) with
  | CmdResult.ok _ => some (local_dir ++ "/" ++ filename)
  | CmdResult.err _ => Option.none

/-- The `aws s3 cp ... -` command built by `load_statistics_from_s3`
(lines 204-208). -/
def loadS3Cmd (s3_file_path : String) : List String :=
  ["aws", "s3", "cp", ensureS3Scheme s3_file_path, "-"]

/-- Embedding of `load_statistics_from_s3` (jmeter_s3_utils.py, lines
193-218): `json.loads` is the oracle `jsonParse`, whose parse failure
(`Option.none`) models the caught `JSONDecodeError`. -/
def load_statistics_from_s3 {J : Type} (runCmd : List String → CmdResult)
    (jsonParse : String → Option J) (s3_file_path : String) : Option J :=
  match runCmd (loadS3Cmd s3_file_path) with
  | CmdResult.ok stdout => jsonParse stdout
  | CmdResult.err _ => Option.none

/-- C8: the S3 helpers never propagate a failed `aws` subprocess or a JSON
parse failure: `list_s3_files` degrades to `[]`, `download_s3_file` and
`load_statistics_from_s3` to `None`; on success each returns its normal
result (the parsed listing, the local path, the parsed JSON). -/
theorem c8_s3_helpers_swallow_failures {J : Type}
    (runCmd : List String → CmdResult) (jsonParse : String → Option J)
    (s3_path pattern filename local_dir s3_file_path : String) :
    (∀ e, runCmd (listS3Cmd s3_path) = CmdResult.err e →
      list_s3_files runCmd s3_path pattern = []) ∧
    (∀ out, runCmd (listS3Cmd s3_path) = CmdResult.ok out →
      list_s3_files runCmd s3_path pattern = parseS3Listing out pattern) ∧
    (∀ e, runCmd (downloadS3Cmd s3_path filename local_dir)
        = CmdResult.err e →
      download_s3_file runCmd s3_path filename local_dir = Option.none) ∧
    (∀ out, runCmd (downloadS3Cmd s3_path filename local_dir)
        = CmdResult.ok out →
      download_s3_file runCmd s3_path filename local_dir
        = some (local_dir ++ "/" ++ filename)) ∧
    (∀ e, runCmd (loadS3Cmd s3_file_path) = CmdResult.err e →
      load_statistics_from_s3 runCmd jsonParse s3_file_path = Option.none) ∧
    (∀ out, runCmd (loadS3Cmd s3_file_path) = CmdResult.ok out →
      load_statistics_from_s3 runCmd jsonParse s3_file_path
        = jsonParse out) ∧
    (∀ out, runCmd (loadS3Cmd s3_file_path) = CmdResult.ok out →
      jsonParse out = Option.none →
      load_statistics_from_s3 runCmd jsonParse s3_file_path
        = Option.none) := by
  refine ⟨?_, ?_, ?_, ?_, ?_, ?_, ?_⟩
  · intro e he
    simp [list_s3_files, he]
  · intro out hout
    simp [list_s3_files, hout]
  · intro e he
    simp [download_s3_file, he]
  · intro out hout
    simp [download_s3_file, hout]
  · intro e he
    simp [load_statistics_from_s3, he]
  · intro out hout
    simp [load_statistics_from_s3, hout]
  · intro out hout hj
    simp [load_statistics_from_s3, hout, hj]

/-- Witness for C8 at a concrete input: an `aws` CLI that always fails with
exit-code stderr `boom`; all three helpers degrade instead of raising. -/
theorem c8_s3_helpers_swallow_failures_witness :
    list_s3_files (fun _ => CmdResult.err "boom") "s3://bkt/p" "statistics"
      = [] ∧
    download_s3_file (fun _ => CmdResult.err "boom") "s3://bkt/p"
      "statistics.json" "/tmp/x" = Option.none ∧
    load_statistics_from_s3 (J := String) (fun _ => CmdResult.err "boom")
      (fun s => some s) "s3://bkt/p/statistics.json" = Option.none := by
  have h := c8_s3_helpers_swallow_failures (J := String)
    (fun _ => CmdResult.err "boom") (fun s => some s) "s3://bkt/p"
    "statistics" "statistics.json" "/tmp/x" "s3://bkt/p/statistics.json"
  exact ⟨h.1 "boom" rfl, h.2.2.1 "boom" rfl, h.2.2.2.2.1 "boom" rfl⟩

/-! ### JMeterS3Path parsing (C5) -/

/-- Python `s.rstrip('/')` over character lists. -/
def rstripSlashChars (cs : List Char) : List Char :=
  (cs.reverse.dropWhile fun c => c = '/').reverse

/-- Metadata of a parsed JMeter S3 path: the named regex groups
(`prefixPart` models the group named after the path portion between the
bucket and `engine=`) plus the `concurrency` / `is_sequential` keys that
`_parse_path` adds. At `match.groupdict()` time the two extra fields are
`Option.none`. -/
structure JMeterS3Meta where
  bucket : List Char
  prefixPart : List Char
  engine : List Char
  cluster_size : List Char
  benchmark : List Char
  run_type : List Char
  concurrency : Option Int
  is_sequential : Option Bool
  deriving Repr, DecidableEq

/-- Matching of `key` followed by a greedy non-empty `[^/]+` group: since the
group cannot cross a `/` and (in both regexes) is followed by a literal `/`
or by nothing that constrains it, its match is exactly the maximal run of
non-`/` characters. Returns the group and the remaining input. -/
def parseKeyedSeg (key : List Char) (r : List Char) :
    Option (List Char × List Char) :=
  if key.isPrefixOf r then
    let r1 := r.drop key.length
    let seg := r1.takeWhile fun c => c ≠ '/'
    if seg.isEmpty then Option.none else some (seg, r1.drop seg.length)
  else Option.none

/-- Suffix of `PATH_PATTERN_WITH_RUN_TYPE` from `/engine=` on:
`/engine=([^/]+)/cluster_size=([^/]+)/benchmark=([^/]+)/run_type=([^/]+)/?`
(the trailing `/?` and the unanchored remainder impose no constraint). -/
def tailWithRunType (r : List Char) :
    Option (List Char × List Char × List Char × List Char) :=
  match parseKeyedSeg "/engine=".toList r with
  | Option.none => Option.none
  | some (e, r1) =>
    match parseKeyedSeg "/cluster_size=".toList r1 with
    | Option.none => Option.none
    | some (cs, r2) =>
      match parseKeyedSeg "/benchmark=".toList r2 with
      | Option.none => Option.none
      | some (b, r3) =>
        match parseKeyedSeg "/run_type=".toList r3 with
        | Option.none => Option.none
        | some (rt, _) => some (e, cs, b, rt)

/-- Suffix of `PATH_PATTERN_DIRECT` from `/engine=` on: after the benchmark
group, `/(?:concurrency_\d+|sequential)/?`. The `\d+` is greedy, so the
`run_type` group is `concurrency_` plus the maximal digit run (digits are
modelled as ASCII); the `sequential` alternative is a bare literal. Nothing
anchors the end, so trailing characters are allowed in both alternatives. -/
def tailDirect (r : List Char) :
    Option (List Char × List Char × List Char × List Char) :=
  match parseKeyedSeg "/engine=".toList r with
  | Option.none => Option.none
  | some (e, r1) =>
    match parseKeyedSeg "/cluster_size=".toList r1 with
    | Option.none => Option.none
    | some (cs, r2) =>
      match parseKeyedSeg "/benchmark=".toList r2 with
      | Option.none => Option.none
      | some (b, r3) =>
        if "/concurrency_".toList.isPrefixOf r3
            ∧ ¬((r3.drop 13).takeWhile Char.isDigit).isEmpty then
          some (e, cs, b,
            "concurrency_".toList ++ (r3.drop 13).takeWhile Char.isDigit)
        else if "/sequential".toList.isPrefixOf r3 then
          some (e, cs, b, "sequential".toList)
        else Option.none

/-- Leftmost-match scan for the lazy `(?P<prefixPart>.*?)` group: try the rest
of the pattern at the current position, else advance one character; `.` does
not match a newline, so the scan stops at the first `'\n'`. `acc` holds the
consumed characters in reverse. -/
def scanFrom (tailFn : List Char →
      Option (List Char × List Char × List Char × List Char)) :
    List Char → List Char →
    Option (List Char × (List Char × List Char × List Char × List Char))
  | acc, r =>
    match tailFn r with
    | some t => some (acc.reverse, t)
    | Option.none =>
      match r with
      | [] => Option.none
      | c :: rest =>
        if c = '\n' then Option.none else scanFrom tailFn (c :: acc) rest

/-- Shared head of both regexes: `s3://(?P<bucket>[^/]+)/`. The bucket group
cannot cross a `/` and is followed by a literal `/`, so it is the maximal
non-`/` run after `s3://`. -/
def matchS3Head (raw : List Char) : Option (List Char × List Char) :=
  if "s3://".toList.isPrefixOf raw then
    let r0 := raw.drop 5
    let bucket := r0.takeWhile fun c => c ≠ '/'
    if bucket.isEmpty then Option.none
    else
      match r0.drop bucket.length with
      | '/' :: r1 => some (bucket, r1)
      | _ => Option.none
  else Option.none

/-- `re.match` of `PATH_PATTERN_WITH_RUN_TYPE` (jmeter_s3_utils.py, lines
26-30), returning the group dict. -/
def matchPatternWithRunType (raw : List Char) : Option JMeterS3Meta :=
  match matchS3Head raw with
  | Option.none => Option.none
  | some (bucket, r1) =>
    match scanFrom tailWithRunType [] r1 with
    | some (pre, (e, cs, b, rt)) =>
      some ⟨bucket, pre, e, cs, b, rt, Option.none, Option.none⟩
    | Option.none => Option.none

/-- `re.match` of `PATH_PATTERN_DIRECT` (jmeter_s3_utils.py, lines 31-35). -/
def matchPatternDirect (raw : List Char) : Option JMeterS3Meta :=
  match matchS3Head raw with
  | Option.none => Option.none
  | some (bucket, r1) =>
    match scanFrom tailDirect [] r1 with
    | some (pre, (e, cs, b, rt)) =>
      some ⟨bucket, pre, e, cs, b, rt, Option.none, Option.none⟩
    | Option.none => Option.none

/-- Lines 44-48 of `_parse_path`: try the `run_type=` pattern first, then the
direct pattern. -/
def jmeterMatchGroups (raw : List Char) : Option JMeterS3Meta :=
  match matchPatternWithRunType raw with
  | some g => some g
  | Option.none => matchPatternDirect raw

/-- Digit-run value for Python `int`: digits with single underscores allowed
between digits (ASCII model). -/
def pyIntDigits (acc : Nat) : List Char → Option Nat
  | [] => some acc
  | '_' :: c :: rest =>
    if c.isDigit then pyIntDigits (acc * 10 + (c.toNat - 48)) rest
    else Option.none
  | ['_'] => Option.none
  | c :: rest =>
    if c.isDigit then pyIntDigits (acc * 10 + (c.toNat - 48)) rest
    else Option.none

/-- Python `int(s)` on a string: optional surrounding whitespace, optional
sign, then a non-empty digit body; `Option.none` models the `ValueError`
raised on anything else. -/
def pyIntOfChars (cs : List Char) : Option Int :=
  let t := ((cs.dropWhile Char.isWhitespace).reverse.dropWhile
    Char.isWhitespace).reverse
  let body : List Char → Option Nat := fun u =>
    match u with
    | [] => Option.none
    | c :: rest =>
      if c.isDigit then pyIntDigits (c.toNat - 48) rest else Option.none
  match t with
  | '+' :: rest => (body rest).map fun n => (n : Int)
  | '-' :: rest => (body rest).map fun n => -(n : Int)
  | _ => (body t).map fun n => (n : Int)

/-- Embedding of `JMeterS3Path.__init__` + `_parse_path` (jmeter_s3_utils.py,
lines 37-67): `rstrip('/')`, try both patterns, raise `ValueError` when
neither matches, then post-process `run_type`; `int(run_type.split('_')[1])`
raises `ValueError` when the piece between the first two underscores is not
an integer literal. -/
def jmeterParsePath (s3_path : List Char) : Except String JMeterS3Meta :=
  let raw := rstripSlashChars s3_path
  match jmeterMatchGroups raw with
  | Option.none => Except.error "Invalid S3 path format"
  | some g =>
    if "concurrency_".toList.isPrefixOf g.run_type then
      match pySplitChar '_' g.run_type with
      | _ :: piece :: _ =>
        match pyIntOfChars piece with
        | some n => Except.ok
            { g with concurrency := some n, is_sequential := some false }
        | Option.none =>
          Except.error "invalid literal for int() with base 10"
      | _ => Except.error "IndexError"
    else if g.run_type = "sequential".toList then
      Except.ok { g with concurrency := some 1, is_sequential := some true }
    else
      Except.ok
        { g with concurrency := Option.none, is_sequential := Option.none }

/-- C5 (amended): `_parse_path` raises `ValueError` when neither pattern
matches, and also when a match's `run_type` starts with `concurrency_` but
the piece between the first two underscores is not an integer literal
(`int(run_type.split('_')[1])` raises); on other matches it returns the
groups with `concurrency`/`is_sequential` set to `(N, False)` for an integer
piece `N`, `(1, True)` for `run_type == 'sequential'`, and `(None, None)` for
any other `run_type`. -/
theorem c5_parse_path (s : List Char) :
    (jmeterMatchGroups (rstripSlashChars s) = Option.none →
      jmeterParsePath s = Except.error "Invalid S3 path format") ∧
    (∀ g : JMeterS3Meta, jmeterMatchGroups (rstripSlashChars s) = some g →
      ("concurrency_".toList.isPrefixOf g.run_type = true →
        ∀ p0 piece rest,
          pySplitChar '_' g.run_type = p0 :: piece :: rest →
          (∀ n : Int, pyIntOfChars piece = some n →
            jmeterParsePath s = Except.ok
              { g with concurrency := some n,
                       is_sequential := some false }) ∧
          (pyIntOfChars piece = Option.none →
            jmeterParsePath s
              = Except.error "invalid literal for int() with base 10")) ∧
      ("concurrency_".toList.isPrefixOf g.run_type = false →
        (g.run_type = "sequential".toList →
          jmeterParsePath s = Except.ok
            { g with concurrency := some 1, is_sequential := some true }) ∧
        (g.run_type ≠ "sequential".toList →
          jmeterParsePath s = Except.ok
            { g with concurrency := Option.none,
                     is_sequential := Option.none }))) := by
  constructor
  · intro h
    simp only [jmeterParsePath, h]
  · intro g hg
    constructor
    · intro hpref p0 piece rest hsplit
      constructor
      · intro n hn
        simp only [jmeterParsePath, hg, hpref, hsplit, hn, if_true]
      · intro hn
        simp only [jmeterParsePath, hg, hpref, hsplit, hn, if_true]
    · intro hpref
      constructor
      · intro hrt
        simp only [jmeterParsePath, hg, hpref, Bool.false_eq_true, if_false,
          hrt, ite_true]
        rfl
      · intro hrt
        simp only [jmeterParsePath, hg, hpref, Bool.false_eq_true, if_false,
          hrt, ite_false]

/-- Witness for C5 (amended) at a concrete sequential path. -/
theorem c5_parse_path_witness :
    jmeterParsePath
        "s3://b/p/engine=x/cluster_size=y/benchmark=z/run_type=sequential".toList
      = Except.ok
        ⟨"b".toList, "p".toList, "x".toList, "y".toList, "z".toList,
          "sequential".toList, some 1, some true⟩ := by
  have h := (c5_parse_path
    "s3://b/p/engine=x/cluster_size=y/benchmark=z/run_type=sequential".toList).2
    ⟨"b".toList, "p".toList, "x".toList, "y".toList, "z".toList,
      "sequential".toList, Option.none, Option.none⟩ (by decide)
  exact (h.2 (by decide)).1 rfl

/-- Counterexample to C5 as stated: the path
`s3://bkt/pre/engine=e6data/cluster_size=M/benchmark=tpcds/run_type=concurrency_abc/`
matches `PATH_PATTERN_WITH_RUN_TYPE` (whose `run_type` group is any `[^/]+`),
so by the claim parsing must not raise and must set `concurrency = None`; the
code instead raises `ValueError` from `int('abc')`. -/
theorem c5_counterexample :
    (matchPatternWithRunType (rstripSlashChars
        "s3://bkt/pre/engine=e6data/cluster_size=M/benchmark=tpcds/run_type=concurrency_abc/".toList)).isSome
      = true ∧
    jmeterParsePath
        "s3://bkt/pre/engine=e6data/cluster_size=M/benchmark=tpcds/run_type=concurrency_abc/".toList
      = Except.error "invalid literal for int() with base 10" := by
  constructor
  · decide
  · rfl
